import Mathlib

/-!
Verification development for the PreçoFácil establishment-search application.

The TypeScript sources are shallowly embedded:
* JavaScript numbers are modelled as `ℚ` (floating-point transcendental code,
  namely the haversine distance, is modelled separately over `ℝ`);
* `Math.random()` draws are made explicit: functions that consume randomness
  take the drawn values as extra arguments (`ℕ → ℚ` streams of draws in
  `[0, 1)`, or a single draw);
* network calls are modelled as oracle parameters at the fetch boundary;
* `Math.round x` is `⌊x + 1/2⌋` and `Math.floor` is `⌊·⌋`;
* the JS array sort by the comparator `(a, b) => a.distance - b.distance`
  is modelled by `List.insertionSort` on the same key (the claims checked
  here depend only on the ordering, not on how ties are placed).
-/

/-! ### geolocation.ts: coordinates and CEP lookup -/

/-- Model of `Coordinates` from `geolocation.ts` (`lat`/`lng` in degrees). -/
structure Coordinates where
  lat : ℚ
  lng : ℚ
deriving DecidableEq

/-- Model of the digit-stripping step of `getAddressFromCEP` (the `replace` call with the non-digit regex and empty replacement). -/
def cleanCEP (cep : String) : String :=
  ⟨cep.toList.filter Char.isDigit⟩

/-- The code (path component) that `getAddressFromCEP` sends to the ViaCEP
endpoint, or `none` when the function throws `CEP inválido` before the
`fetch` call: after stripping non-digits it requires exactly 8 digits. -/
def cepLookupCode (cep : String) : Option String :=
  if (cleanCEP cep).length = 8 then some (cleanCEP cep) else none

/-- Model of `getAddressFromCEP` from `geolocation.ts`.  Everything after the `fetch`
(HTTP status check, `data.erro` check, the Nominatim coordinate lookup and
the São Paulo fallback) is network-dependent and is modelled by the
`oracle` parameter; a thrown error anywhere is caught and turned into
`null`, which the oracle models by returning `none`.  The function returns
`none` with no oracle consultation when the cleaned CEP is not 8 digits. -/
def getAddressFromCEP {α : Type} (oracle : String → Option α) (cep : String) :
    Option α :=
  match cepLookupCode cep with
  | none => none
  | some code => oracle code

/-! ### places.ts: data model and category mapping -/

/-- Model of `Place` from `places.ts`. -/
structure Place where
  id : String
  name : String
  type : String
  category : String
  distance : ℚ
  address : String
  coordinates : Coordinates
deriving DecidableEq

/-- The OSM tags of an Overpass element that `places.ts` reads
(`name`, `shop`, `amenity` and the four address tags); a tag that is
absent on the element is `none`. -/
structure OsmTags where
  name : Option String
  shop : Option String
  amenity : Option String
  addrStreet : Option String
  addrHousenumber : Option String
  addrNeighbourhood : Option String
  addrCity : Option String
deriving DecidableEq

/-- An element of the Overpass response (`element.id`, `element.lat`,
`element.lon`, `element.tags`; `tags` may be absent). -/
structure OsmElement where
  id : ℤ
  lat : ℚ
  lon : ℚ
  tags : Option OsmTags
deriving DecidableEq

/-- Model of `CATEGORY_TAGS` from `places.ts`, as the ordered list of entries that
`Object.entries` yields (insertion order). -/
def CATEGORY_TAGS : List (String × List String) :=
  [(("Mercado"), [("supermarket"), ("convenience"), ("grocery")]),
   (("Farmácia"), [("pharmacy"), ("chemist")]),
   (("Lanchonete"), [("fast_food"), ("restaurant")]),
   (("Cafeteria"), [("cafe"), ("coffee_shop")]),
   (("Padaria"), [("bakery")]),
   (("Restaurante"), [("restaurant")])]

/-- Model of `tagList.includes(v)` where `v` is `tags.shop` or `tags.amenity` and may
be `undefined` (`includes(undefined)` is `false` on a list of strings). -/
def optMem (o : Option String) (l : List String) : Bool :=
  match o with
  | some s => decide (s ∈ l)
  | none => false

/-- Model of `getCategoryFromTags` from `places.ts`: first entry of `CATEGORY_TAGS`
(in insertion order) whose tag list contains the `shop` or the `amenity`
tag; `"Outros"` when none matches. -/
def getCategoryFromTags (tags : OsmTags) : String :=
  match CATEGORY_TAGS.find? (fun p => optMem tags.shop p.2 || optMem tags.amenity p.2) with
  | some p => p.1
  | none => ("Outros")

/-- Helper building an `OsmTags` value carrying only `shop`/`amenity`
(the only fields `getCategoryFromTags` reads). -/
def mkTags (shop amenity : Option String) : OsmTags :=
  ⟨none, shop, amenity, none, none, none, none⟩

/-- All tags occurring in `CATEGORY_TAGS` (`Object.values(CATEGORY_TAGS).flat()`). -/
def supportedTags : List String :=
  CATEGORY_TAGS.foldr (fun p acc => p.2 ++ acc) []

/-- Model of `formatAddress` from `places.ts`: join the present (and non-empty,
by JS truthiness) address tags with `", "`, or the placeholder text. -/
def formatAddress (tags : OsmTags) : String :=
  let parts := ([tags.addrStreet, tags.addrHousenumber,
                 tags.addrNeighbourhood, tags.addrCity].filterMap id).filter
    (fun s => s ≠ "")
  if parts.length > 0 then String.intercalate (", ") parts
  else ("Endereço não disponível")

/-! ### places.ts: searchNearbyPlaces -/

/-- Comparison key of the sort in `searchNearbyPlaces`
(`(a, b) => a.distance - b.distance`). -/
def distLE (a b : Place) : Prop := a.distance ≤ b.distance

instance : DecidableRel distLE :=
  fun a b => inferInstanceAs (Decidable (a.distance ≤ b.distance))

instance : IsTotal Place distLE := ⟨fun a b => le_total a.distance b.distance⟩

instance : IsTrans Place distLE := ⟨fun _ _ _ hab hbc => le_trans hab hbc⟩

/-- The success path of `searchNearbyPlaces`: filter the Overpass elements
to those with a (truthy) `name` tag, map each to a `Place` (computing the
distance from the query point — `dist` abstracts the floating-point
`calculateDistance` — the category and the address), sort ascending by
distance, and keep the first 20.  `coordinates` is the query point. -/
def searchSuccess (dist : Coordinates → Coordinates → ℚ)
    (coordinates : Coordinates) (elements : List OsmElement) : List Place :=
  let places := elements.filterMap (fun e =>
    match e.tags with
    | none => none
    | some t =>
      match t.name with
      | none => none
      | some nm =>
        if nm = "" then none else
        let placeCoords : Coordinates := ⟨e.lat, e.lon⟩
        let category := getCategoryFromTags t
        some { id := toString e.id
               name := nm
               type := category
               category := category
               distance := dist coordinates placeCoords
               address := formatAddress t
               coordinates := placeCoords })
  (places.insertionSort distLE).take 20

/-- The hardcoded `mockData` table of `getMockPlaces` in `places.ts`:
name, type, baseDistance. -/
def mockData : List (String × String × ℚ) :=
  [(("Supermercado Economia"), ("Mercado"), 0.5),
   (("Farmácia Saúde+"), ("Farmácia"), 0.8),
   (("Lanchonete Sabor & Cia"), ("Lanchonete"), 1.2),
   (("Mercado Preço Bom"), ("Mercado"), 1.5),
   (("Café Aroma"), ("Cafeteria"), 0.3),
   (("Padaria Pão Quente"), ("Padaria"), 0.6),
   (("Farmácia Popular"), ("Farmácia"), 1.0),
   (("Restaurante Bom Sabor"), ("Restaurante"), 0.9)]

/-- Model of `getMockPlaces` from `places.ts`: the fixed mock establishments with
randomly jittered coordinates.  Item `index` consumes the draws
`urand (2*index)` (for `lat`) and `urand (2*index+1)` (for `lng`), each a
`Math.random()` value in `[0, 1)`. -/
def getMockPlaces (coordinates : Coordinates) (urand : ℕ → ℚ) : List Place :=
  mockData.enum.map (fun p =>
    let index := p.1
    let item := p.2
    { id := ("mock-") ++ toString index
      name := item.1
      type := item.2.1
      category := item.2.1
      distance := item.2.2
      address := ("Rua Exemplo, ") ++ toString (100 + index * 50)
      coordinates := ⟨coordinates.lat + (urand (2 * index) - 0.5) * 0.02,
                      coordinates.lng + (urand (2 * index + 1) - 0.5) * 0.02⟩ })

/-- Model of `searchNearbyPlaces` from `places.ts`.  Here `response` is the parsed
Overpass response (`some elements`), or `none` on any transport/HTTP/parse
failure, in which case the `catch` block returns `getMockPlaces`. -/
def searchNearbyPlaces (dist : Coordinates → Coordinates → ℚ) (urand : ℕ → ℚ)
    (coordinates : Coordinates) (response : Option (List OsmElement)) : List Place :=
  match response with
  | some elements => searchSuccess dist coordinates elements
  | none => getMockPlaces coordinates urand

/-! ### places.ts: mock product generation -/

/-- Model of `Product` from `places.ts` (optional provenance fields included). -/
structure Product where
  id : String
  name : String
  price : ℚ
  store : String
  distance : String
  category : String
  source : Option String
  lastUpdated : Option String
  confidence : Option String
  isReal : Option Bool
deriving DecidableEq

/-- One `{ name, basePrice }` row of the product table. -/
structure NamedPrice where
  name : String
  basePrice : ℚ
deriving DecidableEq

/-- The Mercado row of `productsByCategory`, also the fallback list for
an unknown establishment type. -/
def mercadoRows : List NamedPrice :=
  [⟨("Arroz Tipo 1 5kg"), 24.90⟩, ⟨("Feijão Carioca 1kg"), 8.50⟩,
   ⟨("Óleo de Soja 900ml"), 7.90⟩, ⟨("Açúcar Cristal 1kg"), 4.90⟩,
   ⟨("Café Torrado 500g"), 14.90⟩, ⟨("Leite Integral 1L"), 5.50⟩,
   ⟨("Macarrão Espaguete 500g"), 3.90⟩, ⟨("Farinha de Trigo 1kg"), 5.50⟩,
   ⟨("Sal Refinado 1kg"), 2.50⟩, ⟨("Molho de Tomate 340g"), 3.20⟩]

/-- Model of `productsByCategory` from `generateRealisticProducts` in `places.ts`. -/
def productsByCategory : List (String × List NamedPrice) :=
  [(("Mercado"), mercadoRows),
   (("Farmácia"),
    [⟨("Dipirona Sódica 500mg"), 9.90⟩, ⟨("Vitamina C 1g"), 18.50⟩,
     ⟨("Protetor Solar FPS 50"), 48.90⟩, ⟨("Paracetamol 750mg"), 11.50⟩,
     ⟨("Álcool Gel 70% 500ml"), 14.90⟩, ⟨("Ibuprofeno 600mg"), 15.90⟩,
     ⟨("Esmalte Colorido"), 7.90⟩, ⟨("Shampoo Anticaspa 400ml"), 22.90⟩,
     ⟨("Fralda Descartável M"), 42.90⟩, ⟨("Termômetro Digital"), 28.90⟩]),
   (("Lanchonete"),
    [⟨("X-Burger Artesanal"), 22.90⟩, ⟨("Refrigerante Lata 350ml"), 6.50⟩,
     ⟨("Batata Frita Grande"), 15.90⟩, ⟨("Hot Dog Completo"), 12.50⟩,
     ⟨("Suco Natural 500ml"), 10.90⟩, ⟨("X-Salada"), 18.90⟩,
     ⟨("Milk Shake"), 14.90⟩, ⟨("Porção de Onion Rings"), 16.90⟩,
     ⟨("Sanduíche Natural"), 11.90⟩, ⟨("Açaí 500ml"), 18.90⟩]),
   (("Cafeteria"),
    [⟨("Café Expresso"), 7.50⟩, ⟨("Cappuccino Tradicional"), 11.90⟩,
     ⟨("Pão de Queijo"), 5.50⟩, ⟨("Croissant Recheado"), 9.90⟩,
     ⟨("Bolo Caseiro Fatia"), 10.50⟩, ⟨("Café com Leite"), 8.90⟩,
     ⟨("Brownie"), 12.90⟩, ⟨("Torta de Limão"), 14.90⟩,
     ⟨("Cookie Chocolate"), 6.90⟩, ⟨("Chá Gelado 500ml"), 9.90⟩]),
   (("Padaria"),
    [⟨("Pão Francês (kg)"), 14.90⟩, ⟨("Pão de Forma Integral"), 9.50⟩,
     ⟨("Bolo de Chocolate"), 28.90⟩, ⟨("Sonho Recheado"), 6.50⟩,
     ⟨("Empada de Frango"), 7.90⟩, ⟨("Pão de Queijo"), 4.90⟩,
     ⟨("Torta Salgada"), 32.90⟩, ⟨("Biscoito Caseiro (kg)"), 24.90⟩,
     ⟨("Croissant"), 8.90⟩, ⟨("Baguete"), 6.90⟩])]

/-- Lookup of the product table by establishment type, falling back to the Mercado row for an unknown type. -/
def productsFor (ty : String) : List NamedPrice :=
  match productsByCategory.find? (fun p => p.1 == ty) with
  | some p => p.2
  | none => mercadoRows

/-- Model of `Math.round` on a JS number: round half away from zero upward,
`⌊x + 1/2⌋` for every finite `x`. -/
def jsRound (x : ℚ) : ℤ := ⌊x + 1 / 2⌋

/-- Model of `generateRealisticProducts` from `places.ts`.  Randomness is explicit:
`u0` is the `Math.random()` draw selecting the count
(`3 + Math.floor(u0 * 3)`); `shuffle` abstracts
`[...products].sort(() => Math.random() - 0.5)`, a random-comparator sort
whose only guarantee is that it permutes the table; `urand index` is the
`Math.random()` draw for the price variation of item `index`. -/
def generateRealisticProducts (place : Place)
    (shuffle : List NamedPrice → List NamedPrice) (u0 : ℚ) (urand : ℕ → ℚ) :
    List Product :=
  let products := productsFor place.type
  let numProducts := 3 + (⌊u0 * 3⌋).toNat
  let shuffled := shuffle products
  let selectedProducts := shuffled.take numProducts
  selectedProducts.enum.map (fun p =>
    let index := p.1
    let product := p.2
    let variation := 0.85 + urand index * 0.4
    let price := product.basePrice * variation
    { id := place.id ++ ("-") ++ toString index
      name := product.name
      price := (jsRound (price * 100) : ℚ) / 100
      store := place.name
      distance := toString place.distance ++ (" km")
      category := place.type
      source := none
      lastUpdated := none
      confidence := none
      isReal := some false })

/-! ### places.ts: attaching real prices (addRealProductsToPlaces) -/

/-- The `socialMedia` object of `StoreWithRealPrices` (`ai-price-scraper.ts`). -/
structure SocialMedia where
  instagram : Option String
  facebook : Option String
  website : Option String
deriving DecidableEq

/-- One priced product returned by the AI price lookup
(`RealPriceData` in `ai-price-scraper.ts`). -/
structure RealPriceData where
  productName : String
  price : ℚ
  source : String
  lastUpdated : String
  confidence : String
deriving DecidableEq

/-- The part of `StoreWithRealPrices` (`ai-price-scraper.ts`) that
`addRealProductsToPlaces` consumes. -/
structure StoreWithRealPrices where
  prices : List RealPriceData
  socialMedia : SocialMedia
deriving DecidableEq

/-- Model of `StoreWithProducts` from `places.ts` (`extends Place`). -/
structure StoreWithProducts extends Place where
  products : List Product
  socialMedia : Option SocialMedia
deriving DecidableEq

/-- The conversion of the AI price list to `Product`s inside
`addRealProductsToPlaces` (the `realPrices.prices.map` call). -/
def realPricesToProducts (place : Place) (rp : StoreWithRealPrices) : List Product :=
  rp.prices.enum.map (fun p =>
    { id := place.id ++ ("-") ++ toString p.1
      name := p.2.productName
      price := p.2.price
      store := place.name
      distance := toString place.distance ++ (" km")
      category := place.type
      source := some p.2.source
      lastUpdated := some p.2.lastUpdated
      confidence := some p.2.confidence
      isReal := some true })

/-- The per-place body of `addRealProductsToPlaces`.  `oracle place` models
`fetchRealPricesWithAI(place.name, place.type, city)`: `some rp` when it
resolved to a non-null store record, `none` when it resolved to `null` or
threw (both lead to the generic-products fallback).  `shuffleOf`, `u0Of`
and `urandOf` are the `Math.random()` draws of that call for the fallback. -/
def processPlace (oracle : Place → Option StoreWithRealPrices)
    (shuffleOf : Place → List NamedPrice → List NamedPrice)
    (u0Of : Place → ℚ) (urandOf : Place → ℕ → ℚ) (place : Place) :
    StoreWithProducts :=
  match oracle place with
  | some rp =>
    if 0 < rp.prices.length then
      { toPlace := place
        products := realPricesToProducts place rp
        socialMedia := some rp.socialMedia }
    else
      { toPlace := place
        products := generateRealisticProducts place (shuffleOf place) (u0Of place) (urandOf place)
        socialMedia := none }
  | none =>
    { toPlace := place
      products := generateRealisticProducts place (shuffleOf place) (u0Of place) (urandOf place)
      socialMedia := none }

/-- Model of `addRealProductsToPlaces` from `places.ts`: process the places in
batches of `batchSize = 5` (each batch mapped in parallel by
`Promise.all`, which keeps the batch order, and appended to the
accumulator), so the output order follows the input order. -/
def addRealProductsToPlaces (oracle : Place → Option StoreWithRealPrices)
    (shuffleOf : Place → List NamedPrice → List NamedPrice)
    (u0Of : Place → ℚ) (urandOf : Place → ℕ → ℚ) (places : List Place) :
    List StoreWithProducts :=
  if h : places = [] then []
  else
    (places.take 5).map (processPlace oracle shuffleOf u0Of urandOf) ++
      addRealProductsToPlaces oracle shuffleOf u0Of urandOf (places.drop 5)
termination_by places.length
decreasing_by
  simp only [List.length_drop]
  have hpos : 0 < places.length := List.length_pos.mpr h
  omega

/-! ### establishment-quiz.tsx: answer options and result rule chain -/

/-- JS `String.prototype.includes`: `pat` occurs as a contiguous substring
of `s`. -/
def hasSubstr (pat : List Char) : List Char → Bool
  | [] => pat.isEmpty
  | c :: t => pat.isPrefixOf (c :: t) || hasSubstr pat t

/-- Model of `s.includes(pat)` on strings. -/
def jsIncludes (s pat : String) : Bool := hasSubstr pat.toList s.toList

/-- The `value`s of question 1 of `quizQuestions`. -/
def q1Options : List String := [("food"), ("health"), ("meal"), ("general")]

/-- The `value`s of question 2 of `quizQuestions`. -/
def q2Options : List String := [("variety"), ("specialized"), ("quick"), ("price")]

/-- The `value`s of question 3 of `quizQuestions`. -/
def q3Options : List String := [("large"), ("professional"), ("cozy"), ("simple")]

/-- Model of `determineResult` from `establishment-quiz.tsx`, returning the key into
`quizResults` (each `quizResults[k]` has `type = k`, so the key determines
the returned record up to the static table). -/
def determineResult (userAnswers : List String) : String :=
  let answerString := String.intercalate ("-") userAnswers
  if jsIncludes answerString ("food") &&
      (jsIncludes answerString ("variety") || jsIncludes answerString ("price")) then
    ("Mercado")
  else if jsIncludes answerString ("health") then ("Farmácia")
  else if jsIncludes answerString ("meal") && jsIncludes answerString ("cozy") then
    ("Cafeteria")
  else if jsIncludes answerString ("meal") && jsIncludes answerString ("quick") then
    ("Lanchonete")
  else if jsIncludes answerString ("food") && jsIncludes answerString ("quick") then
    ("Padaria")
  else if jsIncludes answerString ("meal") then ("Restaurante")
  else ("Mercado")

/-! ### auth.ts: register and login -/

/-- A record of the stored user list (`precofacil_users`). -/
structure StoredUser where
  email : String
  password : String
  name : String
deriving DecidableEq

/-- The `{ success, error? }` result of `register`. -/
structure AuthResult where
  success : Bool
  error : Option String
deriving DecidableEq

/-- Model of `register` from `auth.ts`: the result together with the stored user
list after the call (`users` is the parsed `precofacil_users` list). -/
def register (users : List StoredUser) (email password name : String) :
    AuthResult × List StoredUser :=
  if email = "" || password = "" || name = "" then
    (⟨false, some ("Preencha todos os campos")⟩, users)
  else if !jsIncludes email ("@") then
    (⟨false, some ("Email inválido")⟩, users)
  else if password.length < 6 then
    (⟨false, some ("Senha deve ter no mínimo 6 caracteres")⟩, users)
  else if users.any (fun u => u.email == email) then
    (⟨false, some ("Email já cadastrado")⟩, users)
  else
    (⟨true, none⟩, users ++ [⟨email, password, name⟩])

/-- The `{ success, error?, user? }` result of `login`. -/
structure LoginResult where
  success : Bool
  error : Option String
  user : Option (String × String)
deriving DecidableEq

/-- Model of `login` from `auth.ts` (the session write on success only records the
returned user; we return it in the `user` field). -/
def login (users : List StoredUser) (email password : String) : LoginResult :=
  if email = "" || password = "" then
    ⟨false, some ("Preencha todos os campos"), none⟩
  else
    match users.find? (fun u => u.email == email && u.password == password) with
    | none => ⟨false, some ("Email ou senha incorretos"), none⟩
    | some u => ⟨true, none, some (u.email, u.name)⟩

/-! ### geolocation.ts: haversine distance over ℝ -/

/-- Coordinates as real numbers, for the floating-point haversine code. -/
structure RCoordinates where
  lat : ℝ
  lng : ℝ

/-- Model of `toRad` from `geolocation.ts`. -/
noncomputable def toRad (degrees : ℝ) : ℝ := degrees * (Real.pi / 180)

/-- Model of `Math.atan2 y x` over `ℝ`. -/
noncomputable def atan2 (y x : ℝ) : ℝ :=
  if 0 < x then Real.arctan (y / x)
  else if x < 0 then
    (if 0 ≤ y then Real.arctan (y / x) + Real.pi else Real.arctan (y / x) - Real.pi)
  else if 0 < y then Real.pi / 2
  else if y < 0 then -(Real.pi / 2)
  else 0

/-- Model of `Math.round` over `ℝ`. -/
noncomputable def jsRoundR (x : ℝ) : ℤ := ⌊x + 1 / 2⌋

/-- Model of `calculateDistance` from `geolocation.ts` (haversine, Earth radius
6371 km, result rounded to 1 decimal), with JS numbers idealized as `ℝ`. -/
noncomputable def calculateDistance (coord1 coord2 : RCoordinates) : ℝ :=
  let dLat := toRad (coord2.lat - coord1.lat)
  let dLng := toRad (coord2.lng - coord1.lng)
  let a := Real.sin (dLat / 2) * Real.sin (dLat / 2) +
    Real.cos (toRad coord1.lat) * Real.cos (toRad coord2.lat) *
      (Real.sin (dLng / 2) * Real.sin (dLng / 2))
  let c := 2 * atan2 (Real.sqrt a) (Real.sqrt (1 - a))
  let distance := 6371 * c
  (jsRoundR (distance * 10) : ℝ) / 10

/-! ## Claims -/

/-- C4: the quiz maps `["food","variety","large"]` to `"Mercado"` and
`["health","specialized","professional"]` to `"Farmácia"`; and every valid
answer sequence (one chosen `value` per question) containing both `"meal"`
and `"cozy"` yields `"Cafeteria"`, i.e. the meal+cozy rule fires before
the generic meal+quick rule. -/
theorem quiz_determineResult_rules :
    determineResult [("food"), ("variety"), ("large")] = ("Mercado") ∧
    determineResult [("health"), ("specialized"), ("professional")] = ("Farmácia") ∧
    ∀ a1 ∈ q1Options, ∀ a2 ∈ q2Options, ∀ a3 ∈ q3Options,
      ("meal") ∈ [a1, a2, a3] → ("cozy") ∈ [a1, a2, a3] →
      determineResult [a1, a2, a3] = ("Cafeteria") := by
  decide

/-- Witness for C4: the sequence `["meal","quick","cozy"]` contains both
tokens and is mapped to `"Cafeteria"` (not `"Lanchonete"`). -/
theorem quiz_determineResult_rules_witness :
    determineResult [("meal"), ("quick"), ("cozy")] = ("Cafeteria") :=
  quiz_determineResult_rules.2.2 ("meal") (by decide) ("quick") (by decide)
    ("cozy") (by decide) (by decide) (by decide)

/-- If neither a present `shop` nor a present `amenity` value lies in `l`,
the JS `includes` test on `l` is false. -/
theorem optMem_eq_false {o : Option String} {l : List String}
    (h : ∀ s, o = some s → s ∉ l) : optMem o l = false := by
  cases o with
  | none => rfl
  | some s => simpa [optMem] using h s rfl

/-- The expected first-match category for every supported OSM tag, read off
the claim: first entry of the table order Mercado, Farmácia, Lanchonete,
Cafeteria, Padaria, Restaurante whose list contains the tag (so
`restaurant`, listed under both Lanchonete and Restaurante, is expected to
map to Lanchonete). -/
def expectedCategoryTable : List (String × String) :=
  [(("supermarket"), ("Mercado")), (("convenience"), ("Mercado")),
   (("grocery"), ("Mercado")), (("pharmacy"), ("Farmácia")),
   (("chemist"), ("Farmácia")), (("fast_food"), ("Lanchonete")),
   (("restaurant"), ("Lanchonete")), (("cafe"), ("Cafeteria")),
   (("coffee_shop"), ("Cafeteria")), (("bakery"), ("Padaria"))]

/-- C5: the mapping `getCategoryFromTags` is a pure function of the `shop`/`amenity`
tags; on every supported OSM tag (as `shop` or as `amenity`) it returns
the first-matching category in table order; and whenever neither tag is a
supported one it returns `"Outros"`. -/
theorem category_mapping_spec :
    (∀ t1 t2 : OsmTags, t1.shop = t2.shop → t1.amenity = t2.amenity →
      getCategoryFromTags t1 = getCategoryFromTags t2) ∧
    (∀ p ∈ expectedCategoryTable,
      getCategoryFromTags (mkTags (some p.1) none) = p.2 ∧
      getCategoryFromTags (mkTags none (some p.1)) = p.2) ∧
    (∀ shop amenity : Option String,
      (∀ s, shop = some s → s ∉ supportedTags) →
      (∀ s, amenity = some s → s ∉ supportedTags) →
      getCategoryFromTags (mkTags shop amenity) = ("Outros")) := by
  refine ⟨?_, ?_, ?_⟩
  · intro t1 t2 h1 h2
    unfold getCategoryFromTags
    rw [h1, h2]
  · decide
  · intro shop amenity hs ha
    unfold getCategoryFromTags
    have hfind : CATEGORY_TAGS.find?
        (fun p => optMem (mkTags shop amenity).shop p.2 ||
          optMem (mkTags shop amenity).amenity p.2) = none := by
      apply List.find?_eq_none.mpr
      intro p hp
      have hsub : ∀ s ∈ p.2, s ∈ supportedTags := by
        fin_cases hp <;> decide
      simp only [mkTags, Bool.or_eq_true, not_or]
      constructor
      · rw [optMem_eq_false (fun s h2 hmem => hs s h2 (hsub s hmem))]
        simp
      · rw [optMem_eq_false (fun s h2 hmem => ha s h2 (hsub s hmem))]
        simp
    rw [hfind]

/-- Witness for C5: an unsupported tag pair is mapped to `"Outros"`. -/
theorem category_mapping_spec_witness :
    getCategoryFromTags (mkTags (some ("florist")) none) = ("Outros") :=
  category_mapping_spec.2.2 (some ("florist")) none
    (fun s h => by cases h; decide)
    (fun s h => by cases h)

/-- A tag matching the Restaurante list also matches the Lanchonete list. -/
theorem optMem_restaurant_mono {o : Option String}
    (ho : optMem o [("restaurant")] = true) :
    optMem o [("fast_food"), ("restaurant")] = true := by
  cases o with
  | none => exact absurd ho (by decide)
  | some s =>
    simp only [optMem, decide_eq_true_eq, List.mem_singleton] at ho
    simp [optMem, ho]

/-- Specialization of `List.find?_cons_of_pos` to the category search. -/
theorem find?_tags_cons_pos (tags : OsmTags) (e : String × List String)
    (l : List (String × List String))
    (h : (optMem tags.shop e.2 || optMem tags.amenity e.2) = true) :
    List.find? (fun p => optMem tags.shop p.2 || optMem tags.amenity p.2) (e :: l) =
      some e :=
  List.find?_cons_of_pos _ h

/-- Specialization of `List.find?_cons_of_neg` to the category search. -/
theorem find?_tags_cons_neg (tags : OsmTags) (e : String × List String)
    (l : List (String × List String))
    (h : ¬ (optMem tags.shop e.2 || optMem tags.amenity e.2) = true) :
    List.find? (fun p => optMem tags.shop p.2 || optMem tags.amenity p.2) (e :: l) =
      List.find? (fun p => optMem tags.shop p.2 || optMem tags.amenity p.2) l :=
  List.find?_cons_of_neg _ h

/-- C9: `getCategoryFromTags` never returns `"Restaurante"`: the only tag
of the Restaurante list, `restaurant`, already belongs to the Lanchonete
list, which is checked earlier, so the Restaurante entry can never be the
first match. -/
theorem category_restaurante_unreachable (tags : OsmTags) :
    getCategoryFromTags tags ≠ ("Restaurante") := by
  unfold getCategoryFromTags CATEGORY_TAGS
  by_cases h1 : (optMem tags.shop [("supermarket"), ("convenience"), ("grocery")] ||
      optMem tags.amenity [("supermarket"), ("convenience"), ("grocery")]) = true
  · rw [find?_tags_cons_pos tags _ _ h1]; decide
  · rw [find?_tags_cons_neg tags _ _ h1]
    by_cases h2 : (optMem tags.shop [("pharmacy"), ("chemist")] ||
        optMem tags.amenity [("pharmacy"), ("chemist")]) = true
    · rw [find?_tags_cons_pos tags _ _ h2]; decide
    · rw [find?_tags_cons_neg tags _ _ h2]
      by_cases h3 : (optMem tags.shop [("fast_food"), ("restaurant")] ||
          optMem tags.amenity [("fast_food"), ("restaurant")]) = true
      · rw [find?_tags_cons_pos tags _ _ h3]; decide
      · rw [find?_tags_cons_neg tags _ _ h3]
        by_cases h4 : (optMem tags.shop [("cafe"), ("coffee_shop")] ||
            optMem tags.amenity [("cafe"), ("coffee_shop")]) = true
        · rw [find?_tags_cons_pos tags _ _ h4]; decide
        · rw [find?_tags_cons_neg tags _ _ h4]
          by_cases h5 : (optMem tags.shop [("bakery")] ||
              optMem tags.amenity [("bakery")]) = true
          · rw [find?_tags_cons_pos tags _ _ h5]; decide
          · rw [find?_tags_cons_neg tags _ _ h5]
            have h6 : ¬ ((optMem tags.shop [("restaurant")] ||
                optMem tags.amenity [("restaurant")]) = true) := by
              intro hcon
              apply h3
              rw [Bool.or_eq_true] at hcon ⊢
              rcases hcon with hc | hc
              · exact Or.inl (optMem_restaurant_mono hc)
              · exact Or.inr (optMem_restaurant_mono hc)
            rw [find?_tags_cons_neg tags _ _ h6, List.find?_nil]
            decide

/-- Witness for C9 (`tags` is an explicit binder, so we also record a
closed instance): the shop tag `restaurant` is classified as Lanchonete,
not Restaurante. -/
theorem category_restaurante_unreachable_witness :
    getCategoryFromTags (mkTags (some ("restaurant")) none) ≠ ("Restaurante") :=
  category_restaurante_unreachable (mkTags (some ("restaurant")) none)

/-- C3 counterexample: the input `"12345-678"` is malformed in the sense of the claim
sense (length 9, contains a non-digit), yet `getAddressFromCEP` does not
reject it before the network call — the fetch is performed with the
stripped code `"12345678"`. -/
theorem cep_rejects_malformed_counterexample :
    ((("12345-678") : String).length ≠ 8 ∧
      ¬ ((("12345-678") : String).toList.all Char.isDigit = true)) ∧
    cepLookupCode ("12345-678") = some ("12345678") := by
  decide

/-- C3 amended: `getAddressFromCEP` first strips all non-digit characters;
it rejects (returns `null` before any network call) exactly when the
remaining digit string does not have length 8, so every code reaching the
external lookup is an 8-digit numeric string. -/
theorem cep_validation_amended {α : Type} (oracle : String → Option α)
    (cep : String) :
    ((cleanCEP cep).length ≠ 8 →
      cepLookupCode cep = none ∧ getAddressFromCEP oracle cep = none) ∧
    (∀ code, cepLookupCode cep = some code →
      code.length = 8 ∧ ∀ c ∈ code.toList, c.isDigit) := by
  constructor
  · intro h
    have hnone : cepLookupCode cep = none := by
      unfold cepLookupCode
      simp [h]
    refine ⟨hnone, ?_⟩
    unfold getAddressFromCEP
    rw [hnone]
  · intro code hcode
    unfold cepLookupCode at hcode
    by_cases h : (cleanCEP cep).length = 8
    · rw [if_pos h] at hcode
      cases hcode
      refine ⟨h, ?_⟩
      intro c hc
      have hc2 : c ∈ cep.toList.filter Char.isDigit := hc
      exact (List.mem_filter.mp hc2).2
    · rw [if_neg h] at hcode
      cases hcode

/-- Witness for C3 amended: `"123"` is rejected with no oracle call;
`"12345678"` passes through as an 8-digit numeric code. -/
theorem cep_validation_amended_witness :
    (cepLookupCode ("123") = none ∧
      getAddressFromCEP (fun _ => (none : Option Unit)) ("123") = none) ∧
    ((("12345678") : String).length = 8 ∧
      ∀ c ∈ (("12345678") : String).toList, c.isDigit) :=
  ⟨(cep_validation_amended (fun _ => (none : Option Unit)) ("123")).1 (by decide),
   (cep_validation_amended (fun _ => (none : Option Unit)) ("12345678")).2
     ("12345678") (by decide)⟩

/-- C6 counterexample: with `a@b.com` already stored, registering it again
with the short password `123` fails with the password-length error, not
with the duplicate-email error, so "fails with a duplicate-email error
whenever the email is already stored" does not hold. -/
theorem auth_errors_counterexample :
    (register [⟨("a@b.com"), ("secret1"), ("Ana")⟩] ("a@b.com") ("123") ("Ana")).1 =
      ⟨false, some ("Senha deve ter no mínimo 6 caracteres")⟩ ∧
    (register [⟨("a@b.com"), ("secret1"), ("Ana")⟩] ("a@b.com") ("123") ("Ana")).1.error ≠
      some ("Email já cadastrado") := by
  decide

/-- C6 amended: registering an already-stored email fails with the
duplicate-email error provided the earlier validations pass (non-empty
fields, an `@` in the email, password of length at least 6); every
registration with a password shorter than 6 characters fails; and a login
whose (email, password) pair matches no stored user returns the one fixed
failure result, identical whether or not the email is stored. -/
theorem auth_errors_amended :
    (∀ users email password name,
      ¬ email = "" → ¬ password = "" → ¬ name = "" →
      jsIncludes email ("@") = true → ¬ password.length < 6 →
      (∃ u ∈ users, u.email = email) →
      register users email password name =
        (⟨false, some ("Email já cadastrado")⟩, users)) ∧
    (∀ users email password name, password.length < 6 →
      (register users email password name).1.success = false) ∧
    (∀ users email password, ¬ email = "" → ¬ password = "" →
      (∀ u ∈ users, ¬ (u.email = email ∧ u.password = password)) →
      login users email password =
        ⟨false, some ("Email ou senha incorretos"), none⟩) := by
  refine ⟨?_, ?_, ?_⟩
  · intro users email password name h1 h2 h3 h4 h5 h6
    obtain ⟨u, hu, hue⟩ := h6
    unfold register
    have hany : users.any (fun u => u.email == email) = true := by
      simp only [List.any_eq_true, beq_iff_eq]
      exact ⟨u, hu, hue⟩
    rw [if_neg (by simp [h1, h2, h3]), if_neg (by simp [h4]),
      if_neg (by simpa using h5), if_pos (by simpa using hany)]
  · intro users email password name h
    unfold register
    split_ifs <;> simp_all
  · intro users email password h1 h2 h3
    unfold login
    rw [if_neg (by simp [h1, h2])]
    have hfind : users.find?
        (fun u => u.email == email && u.password == password) = none := by
      apply List.find?_eq_none.mpr
      intro u hu
      simp only [Bool.and_eq_true, beq_iff_eq]
      intro hcon
      exact h3 u hu hcon
    rw [hfind]

/-- Witness for C6 amended: a duplicate registration with a valid password
gets the duplicate-email error; a short password is rejected; and a wrong
password yields the same fixed failure with the email stored and with the
email absent. -/
theorem auth_errors_amended_witness :
    register [⟨("a@b.com"), ("secret1"), ("Ana")⟩] ("a@b.com") ("secret2") ("Ana") =
      (⟨false, some ("Email já cadastrado")⟩, [⟨("a@b.com"), ("secret1"), ("Ana")⟩]) ∧
    (register [] ("x@y.com") ("123") ("X")).1.success = false ∧
    login [⟨("a@b.com"), ("secret1"), ("Ana")⟩] ("a@b.com") ("wrongpw") =
      ⟨false, some ("Email ou senha incorretos"), none⟩ ∧
    login [] ("a@b.com") ("wrongpw") =
      ⟨false, some ("Email ou senha incorretos"), none⟩ :=
  ⟨auth_errors_amended.1 _ _ _ _ (by decide) (by decide) (by decide) (by decide)
      (by decide) ⟨⟨("a@b.com"), ("secret1"), ("Ana")⟩, by decide, rfl⟩,
   auth_errors_amended.2.1 [] ("x@y.com") ("123") ("X") (by decide),
   auth_errors_amended.2.2 _ _ _ (by decide) (by decide) (by decide),
   auth_errors_amended.2.2 _ _ _ (by decide) (by decide) (by decide)⟩

/-- A concrete place used to exercise the mock-product generator. -/
def examplePlace : Place :=
  ⟨("p1"), ("Loja Teste"), ("Mercado"), ("Mercado"), 1, ("Rua A"), ⟨0, 0⟩⟩

/-- Every category (including the `Mercado` fallback for an unknown type)
has exactly 10 products in the table. -/
theorem productsFor_length (ty : String) : (productsFor ty).length = 10 := by
  unfold productsFor
  rcases hfind : productsByCategory.find? (fun p => p.1 == ty) with _ | p
  · rw [hfind]
    decide
  · rw [hfind]
    have hmem := List.mem_of_find?_eq_some hfind
    fin_cases hmem <;> decide

/-- C2 counterexample: both failure-fallback producers consume
`Math.random()`, so two invocations on the same input can differ:
`getMockPlaces` jitters the coordinates by the draws, and
`generateRealisticProducts` even returns a different number of items for
different count draws (3 for a draw of 0, 5 for a draw of 0.9). -/
theorem mock_determinism_counterexample :
    getMockPlaces ⟨0, 0⟩ (fun _ => 0.5) ≠ getMockPlaces ⟨0, 0⟩ (fun _ => 0) ∧
    generateRealisticProducts examplePlace id 0 (fun _ => 0) ≠
      generateRealisticProducts examplePlace id 0.9 (fun _ => 0) := by
  constructor
  · intro h
    have h2 := congrArg (fun l => (l.headD examplePlace).coordinates.lat) h
    simp [getMockPlaces, mockData, List.enum, List.enumFrom] at h2
    norm_num at h2
  · intro h
    have h2 := congrArg List.length h
    have hf0 : ⌊(0 : ℚ) * 3⌋ = 0 := by norm_num
    have hf9 : ⌊(0.9 : ℚ) * 3⌋ = 2 := by norm_num
    simp only [generateRealisticProducts, List.length_map, List.enum_length,
      List.length_take, id_eq, productsFor_length, hf0, hf9] at h2
    omega

/-- The fields of a `Place` other than its coordinates. -/
structure PlaceNoCoords where
  id : String
  name : String
  type : String
  category : String
  distance : ℚ
  address : String
deriving DecidableEq

/-- Forget the (randomly jittered) coordinates of a mock place. -/
def dropCoords (p : Place) : PlaceNoCoords :=
  ⟨p.id, p.name, p.type, p.category, p.distance, p.address⟩

/-- C2 amended: the fallback producers are deterministic only up to their
random components.  For `getMockPlaces`, two invocations with arbitrary
random draws agree on every field except the jittered coordinates (id,
name, type, category, distance, address are fixed); per the
counterexample, full equality of invocations fails for both producers. -/
theorem mock_places_deterministic_up_to_jitter (c : Coordinates)
    (u1 u2 : ℕ → ℚ) :
    (getMockPlaces c u1).map dropCoords = (getMockPlaces c u2).map dropCoords := by
  simp [getMockPlaces, mockData, dropCoords, List.enum, List.enumFrom]

/-- C1 counterexample: on the transport-failure path the finder returns
`getMockPlaces`, whose hardcoded distances (0.5, 0.8, 1.2, 1.5, 0.3, …)
are not in non-decreasing order, so the returned list is not sorted by
distance on that path. -/
theorem search_sorted_counterexample :
    ¬ (searchNearbyPlaces (fun _ _ => 0) (fun _ => 0.5) ⟨0, 0⟩ none).Sorted distLE := by
  intro h
  have e : searchNearbyPlaces (fun _ _ => 0) (fun _ => 0.5) ⟨0, 0⟩ none =
      getMockPlaces ⟨0, 0⟩ (fun _ => 0.5) := rfl
  rw [e] at h
  unfold getMockPlaces at h
  rw [List.Sorted, List.pairwise_map] at h
  simp [mockData, List.enum, List.enumFrom, List.pairwise_cons, distLE] at h
  norm_num at h

/-- C1 amended: every list returned by `searchNearbyPlaces` has at most 20
entries; on the successful-response path the list is additionally sorted
by non-decreasing distance (the mock fallback list is not — see the
counterexample — though it also has at most 20 entries). -/
theorem search_results_amended (dist : Coordinates → Coordinates → ℚ)
    (urand : ℕ → ℚ) (c : Coordinates) (response : Option (List OsmElement)) :
    (searchNearbyPlaces dist urand c response).length ≤ 20 ∧
    (∀ elements, response = some elements →
      (searchNearbyPlaces dist urand c response).Sorted distLE) := by
  constructor
  · cases response with
    | none =>
      show (getMockPlaces c urand).length ≤ 20
      simp [getMockPlaces, mockData]
    | some elements =>
      show (searchSuccess dist c elements).length ≤ 20
      simp only [searchSuccess]
      rw [List.length_take]
      exact inf_le_left
  · intro elements he
    subst he
    show (searchSuccess dist c elements).Sorted distLE
    simp only [searchSuccess]
    exact List.Pairwise.sublist (List.take_sublist 20 _)
      (List.sorted_insertionSort distLE _)

/-- Witness for C1 amended at a concrete successful (empty) response and a
concrete distance function. -/
theorem search_results_amended_witness :
    (searchNearbyPlaces (fun _ _ => 0) (fun _ => 0) ⟨0, 0⟩ (some [])).length ≤ 20 ∧
    (searchNearbyPlaces (fun _ _ => 0) (fun _ => 0) ⟨0, 0⟩ (some [])).Sorted distLE :=
  ⟨(search_results_amended (fun _ _ => 0) (fun _ => 0) ⟨0, 0⟩ (some [])).1,
   (search_results_amended (fun _ _ => 0) (fun _ => 0) ⟨0, 0⟩ (some [])).2 [] rfl⟩

/-- Every row of the per-category product table has a positive base price. -/
theorem productsFor_pos (ty : String) (np : NamedPrice)
    (h : np ∈ productsFor ty) : 0 < np.basePrice := by
  unfold productsFor at h
  rcases hfind : productsByCategory.find? (fun p => p.1 == ty) with _ | p
  · rw [hfind] at h
    fin_cases h <;> norm_num [mercadoRows]
  · rw [hfind] at h
    have hmem := List.mem_of_find?_eq_some hfind
    fin_cases hmem <;> (fin_cases h <;> norm_num [mercadoRows])

/-- The second component of an `enum` entry is a list member. -/
theorem snd_mem_of_mem_enum {α : Type} {l : List α} {p : ℕ × α}
    (h : p ∈ l.enum) : p.2 ∈ l :=
  List.get?_mem (List.mem_enum_iff_get?.mp h)

/-- C7: for every place and any random draws in `[0, 1)`, the mock product
generator returns between 3 and 5 products, and the price of every product is
`round(basePrice * r, 2)` (i.e. `⌊basePrice * r * 100 + 1/2⌋ / 100`) for
some `r ∈ [0.85, 1.25]` with `basePrice` a row of the fixed per-category
table — hence every price is non-negative. -/
theorem generate_products_count_price (place : Place)
    (shuffle : List NamedPrice → List NamedPrice) (u0 : ℚ) (urand : ℕ → ℚ)
    (hshuffle : ∀ l, (shuffle l).Perm l)
    (hu0l : 0 ≤ u0) (hu0r : u0 < 1)
    (hurl : ∀ i, 0 ≤ urand i) (hurr : ∀ i, urand i < 1) :
    (3 ≤ (generateRealisticProducts place shuffle u0 urand).length ∧
      (generateRealisticProducts place shuffle u0 urand).length ≤ 5) ∧
    ∀ q ∈ generateRealisticProducts place shuffle u0 urand,
      ∃ np ∈ productsFor place.type, ∃ r : ℚ,
        0.85 ≤ r ∧ r ≤ 1.25 ∧
        q.price = (jsRound (np.basePrice * r * 100) : ℚ) / 100 ∧
        0 ≤ q.price := by
  have hf0 : 0 ≤ ⌊u0 * 3⌋ := Int.le_floor.mpr (by push_cast; nlinarith)
  have hf2 : ⌊u0 * 3⌋ < 3 := Int.floor_lt.mpr (by push_cast; nlinarith)
  constructor
  · have hlen : (generateRealisticProducts place shuffle u0 urand).length =
        min (3 + (⌊u0 * 3⌋).toNat) 10 := by
      have hperm := (hshuffle (productsFor place.type)).length_eq
      simp only [generateRealisticProducts, List.length_map, List.enum_length,
        List.length_take, hperm, productsFor_length]
    rw [hlen]
    omega
  · intro q hq
    simp only [generateRealisticProducts, List.mem_map] at hq
    obtain ⟨p, hp, hq2⟩ := hq
    have hmem : p.2 ∈ (shuffle (productsFor place.type)).take
        (3 + (⌊u0 * 3⌋).toNat) := snd_mem_of_mem_enum hp
    have hmem2 : p.2 ∈ shuffle (productsFor place.type) :=
      (List.take_sublist _ _).mem hmem
    have hmem3 : p.2 ∈ productsFor place.type :=
      (hshuffle (productsFor place.type)).mem_iff.mp hmem2
    subst hq2
    refine ⟨p.2, hmem3, 0.85 + urand p.1 * 0.4, ?_, ?_, rfl, ?_⟩
    · have := hurl p.1
      nlinarith
    · have := hurr p.1
      nlinarith
    · show (0 : ℚ) ≤ (jsRound (p.2.basePrice * (0.85 + urand p.1 * 0.4) * 100) : ℚ) / 100
      have hb := productsFor_pos place.type p.2 hmem3
      have hv : (0 : ℚ) ≤ 0.85 + urand p.1 * 0.4 := by
        have := hurl p.1
        nlinarith
      have hx : (0 : ℚ) ≤ p.2.basePrice * (0.85 + urand p.1 * 0.4) * 100 :=
        mul_nonneg (mul_nonneg (le_of_lt hb) hv) (by norm_num)
      have hz : (0 : ℤ) ≤ jsRound (p.2.basePrice * (0.85 + urand p.1 * 0.4) * 100) := by
        unfold jsRound
        exact Int.le_floor.mpr (by push_cast; linarith)
      have hz2 : (0 : ℚ) ≤ (jsRound (p.2.basePrice * (0.85 + urand p.1 * 0.4) * 100) : ℚ) := by
        exact_mod_cast hz
      linarith

/-- Witness for C7 at a concrete place, identity shuffle and zero draws. -/
theorem generate_products_count_price_witness :
    3 ≤ (generateRealisticProducts examplePlace id 0 (fun _ => 0)).length ∧
    (generateRealisticProducts examplePlace id 0 (fun _ => 0)).length ≤ 5 :=
  (generate_products_count_price examplePlace id 0 (fun _ => 0)
    (fun l => List.Perm.refl l) (by norm_num) (by norm_num)
    (fun _ => le_refl 0) (fun _ => by norm_num)).1

/-- The haversine `a`-value is symmetric in the two coordinates. -/
theorem haversine_a_symm (A B : RCoordinates) :
    Real.sin (toRad (B.lat - A.lat) / 2) * Real.sin (toRad (B.lat - A.lat) / 2) +
      Real.cos (toRad A.lat) * Real.cos (toRad B.lat) *
        (Real.sin (toRad (B.lng - A.lng) / 2) * Real.sin (toRad (B.lng - A.lng) / 2)) =
    Real.sin (toRad (A.lat - B.lat) / 2) * Real.sin (toRad (A.lat - B.lat) / 2) +
      Real.cos (toRad B.lat) * Real.cos (toRad A.lat) *
        (Real.sin (toRad (A.lng - B.lng) / 2) * Real.sin (toRad (A.lng - B.lng) / 2)) := by
  have h1 : toRad (B.lat - A.lat) / 2 = -(toRad (A.lat - B.lat) / 2) := by
    unfold toRad
    ring
  have h2 : toRad (B.lng - A.lng) / 2 = -(toRad (A.lng - B.lng) / 2) := by
    unfold toRad
    ring
  rw [h1, h2]
  simp only [Real.sin_neg]
  ring

/-- C8: the embedded `calculateDistance` (haversine with Earth radius 6371,
rounded to one decimal) is symmetric, and the distance from a point to
itself is 0. -/
theorem calculateDistance_symm_refl :
    (∀ A B : RCoordinates, calculateDistance A B = calculateDistance B A) ∧
    (∀ A : RCoordinates, calculateDistance A A = 0) := by
  constructor
  · intro A B
    simp only [calculateDistance]
    rw [haversine_a_symm A B]
  · intro A
    simp only [calculateDistance]
    have h0 : toRad (A.lat - A.lat) / 2 = 0 := by
      unfold toRad
      ring
    have h0g : toRad (A.lng - A.lng) / 2 = 0 := by
      unfold toRad
      ring
    rw [h0, h0g, Real.sin_zero]
    have ha : (0 : ℝ) * 0 + Real.cos (toRad A.lat) * Real.cos (toRad A.lat) * (0 * 0) = 0 := by
      ring
    rw [ha, Real.sqrt_zero]
    have h1 : (1 : ℝ) - 0 = 1 := by norm_num
    rw [h1, Real.sqrt_one]
    have hatan : atan2 0 1 = 0 := by
      unfold atan2
      rw [if_pos (by norm_num : (0 : ℝ) < 1)]
      norm_num [Real.arctan_zero]
    rw [hatan]
    have hjs : jsRoundR (6371 * (2 * 0) * 10) = 0 := by
      unfold jsRoundR
      norm_num
    rw [hjs]
    norm_num

/-- On every branch (real prices found, empty price list, lookup failure),
the per-place processing keeps the underlying `Place` record unchanged. -/
theorem processPlace_toPlace (oracle : Place → Option StoreWithRealPrices)
    (shuffleOf : Place → List NamedPrice → List NamedPrice)
    (u0Of : Place → ℚ) (urandOf : Place → ℕ → ℚ) (p : Place) :
    (processPlace oracle shuffleOf u0Of urandOf p).toPlace = p := by
  unfold processPlace
  rcases ho : oracle p with _ | rp
  · rfl
  · split <;> first
      | rfl
      | (split <;> rfl)

/-- The batched loop of `addRealProductsToPlaces` is the plain map of the
per-place processing over the input list. -/
theorem addRealProducts_eq_map (oracle : Place → Option StoreWithRealPrices)
    (shuffleOf : Place → List NamedPrice → List NamedPrice)
    (u0Of : Place → ℚ) (urandOf : Place → ℕ → ℚ) (places : List Place) :
    addRealProductsToPlaces oracle shuffleOf u0Of urandOf places =
      places.map (processPlace oracle shuffleOf u0Of urandOf) := by
  have H : ∀ n (l : List Place), l.length ≤ n →
      addRealProductsToPlaces oracle shuffleOf u0Of urandOf l =
        l.map (processPlace oracle shuffleOf u0Of urandOf) := by
    intro n
    induction n with
    | zero =>
      intro l hlen
      have hnil : l = [] := List.length_eq_zero.mp (Nat.le_zero.mp hlen)
      subst hnil
      rw [addRealProductsToPlaces]
      simp
    | succ n ih =>
      intro l hlen
      by_cases hnil : l = []
      · subst hnil
        rw [addRealProductsToPlaces]
        simp
      · rw [addRealProductsToPlaces, dif_neg hnil]
        have hpos : 0 < l.length := List.length_pos.mpr hnil
        rw [ih (l.drop 5) (by rw [List.length_drop]; omega)]
        rw [← List.map_append, List.take_append_drop]
  exact H places.length places le_rfl

/-- C10: for every oracle behaviour, random draws, and input list,
`addRealProductsToPlaces` returns exactly one store per input place, in
the input order, and each output store preserves every `Place` field (id,
name, type, category, distance, address, coordinates) of its input place —
it only adds `products` and possibly `socialMedia`. -/
theorem addRealProducts_preserves_places
    (oracle : Place → Option StoreWithRealPrices)
    (shuffleOf : Place → List NamedPrice → List NamedPrice)
    (u0Of : Place → ℚ) (urandOf : Place → ℕ → ℚ) (places : List Place) :
    (addRealProductsToPlaces oracle shuffleOf u0Of urandOf places).length =
        places.length ∧
    (addRealProductsToPlaces oracle shuffleOf u0Of urandOf places).map
        (fun s => s.toPlace) = places := by
  rw [addRealProducts_eq_map]
  constructor
  · rw [List.length_map]
  · rw [List.map_map]
    have hfun : ((fun s : StoreWithProducts => s.toPlace) ∘
        processPlace oracle shuffleOf u0Of urandOf) = id :=
      funext (fun p => processPlace_toPlace oracle shuffleOf u0Of urandOf p)
    rw [hfun, List.map_id]
